import Mathlib

/-!
Shallow embedding of the document-processing pipeline of `docAgentv2`
(`src/utils/confidence.py`, `src/utils/doc_classifier.py`,
`src/utils/extractor.py`, `src/utils/validation.py`) and proofs about it.

Modelling conventions:
* Python numbers (`int`/`float`) are modelled as `ℚ`; `bool` is kept separate
  but participates in `isinstance(x, (int, float))` checks exactly as in
  Python (where `bool` is a subclass of `int`).  Non-finite floats and the
  `int`/`float` distinction in string rendering are not modelled; they only
  influence cosmetic message text, never a verified property.
* JSON-like dynamic values are the inductive `JValue`; Python `dict`s are
  association lists in insertion order.
* Fallible Python operations (`float(...)`, `x in y`, `y[k]`, attribute
  access) return `Except PyErr`; `try/except` blocks are explicit matches on
  the error, filtered by the caught exception classes.
* Regular expressions from the source are embedded either as direct
  character-shape predicates (for the anchored `re.match` patterns) or via a
  Brzozowski-derivative matcher (for the `re.search` patterns of the
  classifier).  Python's `$` anchor also matches just before a final
  newline; the helper `withFinalNewline` reproduces this.
* External collaborators (the Gemini model service, `json.loads`) are
  parameters: a call outcome datatype, and an abstract `String → Option
  JValue` parse function.
-/

/-- Dynamic (JSON-like) Python value: `None`, `bool`, numbers (as `ℚ`),
strings, lists and dicts (association lists in insertion order). -/
inductive JValue : Type where
  | null : JValue
  | bool : Bool → JValue
  | num : ℚ → JValue
  | str : String → JValue
  | arr : List JValue → JValue
  | obj : List (String × JValue) → JValue
deriving Repr

/-- Python exception values relevant to the embedded code, carrying `str(e)`. -/
inductive PyErr : Type where
  | valueError : String → PyErr
  | typeError : String → PyErr
  | keyError : String → PyErr
  | attributeError : String → PyErr
deriving Repr, DecidableEq

namespace PyErr

/-- The message `str(e)` of an exception. -/
def msg : PyErr → String
  | .valueError m => m
  | .typeError m => m
  | .keyError m => m
  | .attributeError m => m

/-- Whether the exception is caught by `except (ValueError, TypeError)`. -/
def isVEorTE : PyErr → Bool
  | .valueError _ => true
  | .typeError _ => true
  | _ => false

end PyErr

/-- Python whitespace characters for `str.strip`, `\s` and `str.split()`
(ASCII subset; exotic Unicode spaces are not modelled). -/
def pySpace (c : Char) : Bool :=
  c = ' ' || c = '\t' || c = '\n' || c = '\r' || c = '\x0b' || c = '\x0c'

/-- ASCII decimal digit (`\d`). -/
def pyDigit (c : Char) : Bool := '0' ≤ c && c ≤ '9'

/-- Model of `str.lower()` (ASCII; the embedded texts are ASCII). -/
def pyLower (s : String) : String := ⟨s.toList.map Char.toLower⟩

/-- Model of `str.upper()` (ASCII). -/
def pyUpper (s : String) : String := ⟨s.toList.map Char.toUpper⟩

/-- Split a character list at every occurrence of `sep` (the model of
`str.split(sep)` for a one-character separator: `n+1` pieces for `n`
separators, empty pieces kept). -/
def charSplitOn (sep : Char) : List Char → List (List Char)
  | [] => [[]]
  | c :: rest =>
      let r := charSplitOn sep rest
      if c = sep then [] :: r
      else
        match r with
        | h :: t => (c :: h) :: t
        | [] => [[c]]


/-- Model of `str.strip()`: drop leading and trailing Python whitespace. -/
def pyStrip (s : String) : String :=
  ⟨((s.toList.dropWhile pySpace).reverse.dropWhile pySpace).reverse⟩

/-- Is `needle` a prefix of `hay` (character lists)? -/
def listPrefixOf : List Char → List Char → Bool
  | [], _ => true
  | _ :: _, [] => false
  | a :: as, b :: bs => a == b && listPrefixOf as bs

/-- Is `needle` a contiguous substring of `hay`?  Matches Python's `needle in hay` for
strings (the empty string is contained in everything). -/
def listInfixOf (needle hay : List Char) : Bool :=
  listPrefixOf needle hay ||
    match hay with
    | [] => false
    | _ :: t => listInfixOf needle t

/-- Python `needle in hay` for strings. -/
def strContains (hay needle : String) : Bool := listInfixOf needle.toList hay.toList
/-- Model of `str.endswith(suffix)`. -/
def strEndsWith (s suffix : String) : Bool :=
  listPrefixOf suffix.toList.reverse s.toList.reverse

/-- Model of `str.split()`: split on whitespace runs, dropping empty pieces. -/
def pySplitWs (s : String) : List String :=
  (((s.toList ++ [' ']).foldr
      (fun c acc => if pySpace c then [] :: acc else
        match acc with
        | h :: t => (c :: h) :: t
        | [] => [[c]]) []).filter (· ≠ [])).map fun l => ⟨l⟩

/-- Digits of a digit string as a natural number (`int(s)` for digit-only
strings appearing in date tokens). -/
def digitsToNat (l : List Char) : ℕ :=
  l.foldl (fun acc c => acc * 10 + (c.toNat - '0'.toNat)) 0

namespace JValue

/-- Python truthiness `bool(v)`. -/
def truthy : JValue → Bool
  | .null => false
  | .bool b => b
  | .num q => q ≠ 0
  | .str s => s ≠ ""
  | .arr l => !l.isEmpty
  | .obj l => !l.isEmpty

/-- Model of `isinstance(v, (int, float))`, returning the numeric value.  Python
`bool` is a subclass of `int`, so `True`/`False` count as numbers 1/0. -/
def asNum? : JValue → Option ℚ
  | .num q => some q
  | .bool b => some (if b then 1 else 0)
  | _ => none

/-- Model of `isinstance(v, str)`. -/
def asStr? : JValue → Option String
  | .str s => some s
  | _ => none

/-- Model of `v is None`. -/
def isNull : JValue → Bool
  | .null => true
  | _ => false

/-- Python type name, used only inside error-message text. -/
def typeName : JValue → String
  | .null => "NoneType"
  | .bool _ => "bool"
  | .num _ => "float"
  | .str _ => "str"
  | .arr _ => "list"
  | .obj _ => "dict"

/-- Python `v == "key"` (string equality; other types never equal a str). -/
def eqStr (v : JValue) (k : String) : Bool :=
  match v with
  | .str s => s = k
  | _ => false

/-- Python `key in v` for a string key: dict-key membership, list element
equality, substring test for strings; `TypeError` for non-containers. -/
def pyContains (v : JValue) (key : String) : Except PyErr Bool :=
  match v with
  | .obj l => .ok (l.any fun p => p.1 = key)
  | .arr l => .ok (l.any fun x => x.eqStr key)
  | .str s => .ok (strContains s key)
  | other =>
      .error (.typeError ("argument of type " ++ other.typeName ++ " is not iterable"))

/-- Python `v[key]` for a string key. -/
def pyGetItem (v : JValue) (key : String) : Except PyErr JValue :=
  match v with
  | .obj l =>
      match l.lookup key with
      | some x => .ok x
      | none => .error (.keyError key)
  | .str _ => .error (.typeError "string indices must be integers")
  | .arr _ => .error (.typeError "list indices must be integers or slices, not str")
  | other =>
      .error (.typeError (other.typeName ++ " object is not subscriptable"))

/-- Python `v.get(key, default)`; `AttributeError` when `v` is not a dict. -/
def pyDictGet (v : JValue) (key : String) (default : JValue) : Except PyErr JValue :=
  match v with
  | .obj l =>
      match l.lookup key with
      | some x => .ok x
      | none => .ok default
  | other =>
      .error (.attributeError (other.typeName ++ " object has no attribute get"))

end JValue

/-- Decimal string accepted by Python `float(...)` after stripping:
optional sign, digits with at most one decimal point (at least one digit),
optional exponent.  Digit-group underscores and the `inf`/`nan` words are
not modelled (they never arise in the verified properties). -/
def parseFloatQ (s : String) : Option ℚ :=
  let l := (pyStrip s).toList
  let (sign, l) : ℚ × List Char :=
    match l with
    | '+' :: t => (1, t)
    | '-' :: t => (-1, t)
    | t => (1, t)
  let intPart := l.takeWhile pyDigit
  let rest := l.dropWhile pyDigit
  let (fracPart, rest) : List Char × List Char :=
    match rest with
    | '.' :: t => (t.takeWhile pyDigit, t.dropWhile pyDigit)
    | t => ([], t)
  if intPart.isEmpty && fracPart.isEmpty then none
  else
    let mantissa : ℚ :=
      (digitsToNat intPart : ℚ) + (digitsToNat fracPart : ℚ) / ((10 : ℚ) ^ fracPart.length)
    match rest with
    | [] => some (sign * mantissa)
    | e :: t =>
        if e = 'e' || e = 'E' then
          let (esign, t) : Bool × List Char :=
            match t with
            | '+' :: t2 => (true, t2)
            | '-' :: t2 => (false, t2)
            | t2 => (true, t2)
          if t ≠ [] && t.all pyDigit then
            let ex := digitsToNat t
            some (sign * mantissa * (if esign then (10 : ℚ) ^ ex else ((10 : ℚ) ^ ex)⁻¹))
          else none
        else none

/-- Python `float(v)`: numbers and bools convert; strings are parsed
(`ValueError` on failure); everything else raises `TypeError`. -/
def pyFloat (v : JValue) : Except PyErr ℚ :=
  match v with
  | .num q => .ok q
  | .bool b => .ok (if b then 1 else 0)
  | .str s =>
      match parseFloatQ s with
      | some q => .ok q
      | none =>
          .error (.valueError ("could not convert string to float: \x27" ++ s ++ "\x27"))
  | other =>
      .error (.typeError
        ("float() argument must be a string or a real number, not \x27" ++
          other.typeName ++ "\x27"))

/-- Gregorian leap year (as in Python `datetime`). -/
def isLeapYear (y : ℕ) : Bool := y % 4 = 0 && (y % 100 ≠ 0 || y % 400 = 0)

/-- Days in a month (as in Python `datetime`). -/
def daysInMonth (y m : ℕ) : ℕ :=
  if m = 2 then (if isLeapYear y then 29 else 28)
  else if m = 4 || m = 6 || m = 9 || m = 11 then 30
  else 31

/-- Valid `datetime.date(y, m, d)` (year range `MINYEAR..MAXYEAR`). -/
def isValidDate (y m d : ℕ) : Bool :=
  1 ≤ y && y ≤ 9999 && 1 ≤ m && m ≤ 12 && 1 ≤ d && d ≤ daysInMonth y m

/-- The `%Y` token of `strptime`: exactly four digits. -/
def yearTok (s : List Char) : Bool := s.length = 4 && s.all pyDigit

/-- The `%m` token of `strptime` (regex `1[0-2]|0[1-9]|[1-9]`): one or two
digits denoting a month `1..12`, excluding `"0"` and `"00"`. -/
def monthTok (s : List Char) : Bool :=
  s.all pyDigit && (s.length = 1 || s.length = 2) &&
    1 ≤ digitsToNat s && digitsToNat s ≤ 12

/-- The `%d` token of `strptime` (regex `3[01]|[12]\d|0[1-9]|[1-9]`). -/
def dayTok (s : List Char) : Bool :=
  s.all pyDigit && (s.length = 1 || s.length = 2) &&
    1 ≤ digitsToNat s && digitsToNat s ≤ 31

/-- A calendar date `(year, month, day)`. -/
structure Date where
  year : ℕ
  month : ℕ
  day : ℕ
deriving Repr, DecidableEq

/-- Date comparison (`date < date` in Python): lexicographic. -/
def Date.lt (a b : Date) : Bool :=
  a.year < b.year ||
    (a.year = b.year && (a.month < b.month || (a.month = b.month && a.day < b.day)))

/-- Model of `datetime.strptime(s, "%Y<sep>%m<sep>%d")`: the separator-split parts
must be exactly a year, month and day token forming a valid date.  The
token-level split is equivalent to CPython's `_strptime` regexes because
the separator character cannot occur inside a numeric token. -/
def strptimeYMD (sep : Char) (s : String) : Option Date :=
  match charSplitOn sep s.toList with
  | [y, m, d] =>
      if yearTok y && monthTok m && dayTok d then
        let dt : Date := ⟨digitsToNat y, digitsToNat m, digitsToNat d⟩
        if isValidDate dt.year dt.month dt.day then some dt else none
      else none
  | _ => none

/-- Model of `datetime.strptime(s, "%m<sep>%d<sep>%Y")`. -/
def strptimeMDY (sep : Char) (s : String) : Option Date :=
  match charSplitOn sep s.toList with
  | [m, d, y] =>
      if monthTok m && dayTok d && yearTok y then
        let dt : Date := ⟨digitsToNat y, digitsToNat m, digitsToNat d⟩
        if isValidDate dt.year dt.month dt.day then some dt else none
      else none
  | _ => none

/-- Model of `datetime.strptime(s, "%d<sep>%m<sep>%Y")`. -/
def strptimeDMY (sep : Char) (s : String) : Option Date :=
  match charSplitOn sep s.toList with
  | [d, m, y] =>
      if dayTok d && monthTok m && yearTok y then
        let dt : Date := ⟨digitsToNat y, digitsToNat m, digitsToNat d⟩
        if isValidDate dt.year dt.month dt.day then some dt else none
      else none
  | _ => none

/-- Python's `$` anchor in `re.match(p, s)` patterns: the pattern body may
match the whole string or the whole string minus one final newline. -/
def withFinalNewline (p : List Char → Bool) (s : String) : Bool :=
  let l := s.toList
  p l || (l.getLast? = some '\n' && p l.dropLast)

/-! ## ConfidenceScorer (`src/utils/confidence.py`) -/

namespace ConfidenceScorer

/-- Model of `np.mean` of a rational list (the embedded lists are never empty). -/
def npMean (l : List ℚ) : ℚ := l.sum / (l.length : ℚ)

/-- Regex `^\d{4}-\d{2}-\d{2}$` (pattern `YYYY-MM-DD`), body shape. -/
def datePat1Body : List Char → Bool
  | [a, b, c, d, s1, e, f, s2, g, h] =>
      pyDigit a && pyDigit b && pyDigit c && pyDigit d && s1 = '-' &&
        pyDigit e && pyDigit f && s2 = '-' && pyDigit g && pyDigit h
  | _ => false

/-- Regex `^\d{2}/\d{2}/\d{4}$` (pattern `MM/DD/YYYY`), body shape. -/
def datePat2Body : List Char → Bool
  | [a, b, s1, c, d, s2, e, f, g, h] =>
      pyDigit a && pyDigit b && s1 = '/' && pyDigit c && pyDigit d && s2 = '/' &&
        pyDigit e && pyDigit f && pyDigit g && pyDigit h
  | _ => false

/-- Regex `^\d{2}-\d{2}-\d{4}$` (pattern `MM-DD-YYYY`), body shape. -/
def datePat3Body : List Char → Bool
  | [a, b, s1, c, d, s2, e, f, g, h] =>
      pyDigit a && pyDigit b && s1 = '-' && pyDigit c && pyDigit d && s2 = '-' &&
        pyDigit e && pyDigit f && pyDigit g && pyDigit h
  | _ => false

/-- Model of `re.match` against the first date pattern. -/
def matchDatePat1 (s : String) : Bool := withFinalNewline datePat1Body s

/-- Model of `re.match` against the second date pattern. -/
def matchDatePat2 (s : String) : Bool := withFinalNewline datePat2Body s

/-- Model of `re.match` against the third date pattern. -/
def matchDatePat3 (s : String) : Bool := withFinalNewline datePat3Body s

/-- Model of `re.search(r"\d{4}", s)`: contains four consecutive digits. -/
def containsFourDigits (s : String) : Bool :=
  let rec go : List Char → Bool
    | a :: b :: c :: d :: rest =>
        (pyDigit a && pyDigit b && pyDigit c && pyDigit d) || go (b :: c :: d :: rest)
    | _ => false
  go s.toList

/-- Model of `re.search(r"\d{1,2}", s)`: contains at least one digit. -/
def containsDigit (s : String) : Bool := s.toList.any pyDigit

/-- Model of `ConfidenceScorer._date_confidence`.  If one of the three date patterns
matches, the value is parsed with a format chosen by separator and length
(`%Y-%m-%d` for length-10 strings containing a dash, `%m/%d/%Y` for strings
containing a slash, `%m-%d-%Y` otherwise); a successful parse scores 0.9,
a `ValueError` scores 0.4.  Otherwise 0.6 for loosely numeric values and
0.2 for the rest; non-strings score 0.3. -/
def dateConfidence (value : JValue) : ℚ :=
  match value.asStr? with
  | none => 3/10
  | some s =>
      if matchDatePat1 s || matchDatePat2 s || matchDatePat3 s then
        let parseOk : Bool :=
          if strContains s "-" && s.length = 10 then (strptimeYMD '-' s).isSome
          else if strContains s "/" then (strptimeMDY '/' s).isSome
          else if strContains s "-" && s.length ≠ 10 then (strptimeMDY '-' s).isSome
          else true
        if parseOk then 9/10 else 2/5
      else if containsFourDigits s && containsDigit s then 3/5
      else 1/5

/-- Character class `[\d,]` of the currency patterns. -/
def digitComma (c : Char) : Bool := pyDigit c || c = ','

/-- Regex body `[\d,]+\.?\d{0,2}`: either no dot and a nonempty run of
digits/commas, or a nonempty digit/comma run, one dot, then at most two
digits. -/
def amountBody (l : List Char) : Bool :=
  if l.contains '.' then
    let pre := l.takeWhile (· ≠ '.')
    let post := (l.dropWhile (· ≠ '.')).tail
    !pre.isEmpty && pre.all digitComma && post.all pyDigit && post.length ≤ 2
  else
    !l.isEmpty && l.all digitComma

/-- Regex `^\$?[\d,]+\.?\d{0,2}$`, body shape. -/
def currencyPat1Body (l : List Char) : Bool :=
  match l with
  | '$' :: rest => amountBody rest
  | _ => amountBody l

/-- Regex `^[\d,]+\.?\d{0,2}\s*\$?$`, body shape: strip one optional
trailing dollar sign, then trailing whitespace, then the amount body. -/
def currencyPat2Body (l : List Char) : Bool :=
  let l1 := if l.getLast? = some '$' then l.dropLast else l
  let l2 := (l1.reverse.dropWhile pySpace).reverse
  amountBody l2

/-- Model of `ConfidenceScorer._amount_confidence`. -/
def amountConfidence (value : JValue) : ℚ :=
  match value.asNum? with
  | some q => if 0 ≤ q then 85/100 else 3/5
  | none =>
      match value.asStr? with
      | some s =>
          let stripped := pyStrip s
          if withFinalNewline currencyPat1Body stripped ||
              withFinalNewline currencyPat2Body stripped then 4/5
          else if containsDigit s then 1/2
          else 1/5
      | none => 1/5

/-- Character class `[A-Z0-9\-_]`. -/
def idChar (c : Char) : Bool :=
  ('A' ≤ c && c ≤ 'Z') || pyDigit c || c = '-' || c = '_'

/-- Model of `ConfidenceScorer._number_confidence`. -/
def numberConfidence (value : JValue) (originalText : String) : ℚ :=
  match value.asStr? with
  | none => 3/10
  | some s =>
      if withFinalNewline (fun l => !l.isEmpty && l.all idChar) s then
        if strContains originalText s then 9/10 else 3/5
      else 2/5

/-- Character class `[A-Za-z\s\.,]` of the name pattern. -/
def nameChar (c : Char) : Bool :=
  ('A' ≤ c && c ≤ 'Z') || ('a' ≤ c && c ≤ 'z') || pySpace c || c = '.' || c = ','

/-- Model of `ConfidenceScorer._name_confidence`. -/
def nameConfidence (value : JValue) (originalText : String) : ℚ :=
  match value.asStr? with
  | none => 1/5
  | some s =>
      if s.length < 2 then 1/5
      else if strContains (pyLower originalText) (pyLower s) then 4/5
      else if withFinalNewline (fun l => !l.isEmpty && l.all nameChar) s then 7/10
      else 2/5

/-- Character class `[a-zA-Z0-9._%+-]` of the email local part. -/
def emailLocalChar (c : Char) : Bool :=
  ('A' ≤ c && c ≤ 'Z') || ('a' ≤ c && c ≤ 'z') || pyDigit c ||
    c = '.' || c = '_' || c = '%' || c = '+' || c = '-'

/-- Character class `[a-zA-Z0-9.-]` of the email domain part. -/
def emailDomainChar (c : Char) : Bool :=
  ('A' ≤ c && c ≤ 'Z') || ('a' ≤ c && c ≤ 'z') || pyDigit c || c = '.' || c = '-'

def isAsciiAlpha (c : Char) : Bool := ('A' ≤ c && c ≤ 'Z') || ('a' ≤ c && c ≤ 'z')

/-- Regex `[a-zA-Z0-9.-]+\.[a-zA-Z]{2,}` against a whole suffix: some dot
splits it into a nonempty domain-class prefix and an alphabetic TLD of
length at least two.  `preOk` records whether a nonempty all-class prefix
has been consumed so far. -/
def emailDomainOk : Bool → List Char → Bool
  | _, [] => false
  | preOk, c :: rest =>
      (c = '.' && preOk && decide (2 ≤ rest.length) && rest.all isAsciiAlpha) ||
        (emailDomainChar c && emailDomainOk true rest)

/-- Regex `^[a-zA-Z0-9._%+-]+@[a-zA-Z0-9.-]+\.[a-zA-Z]{2,}$`, body shape. -/
def emailPatBody (l : List Char) : Bool :=
  let locals := l.takeWhile (· ≠ '@')
  match l.dropWhile (· ≠ '@') with
  | '@' :: domain =>
      !locals.isEmpty && locals.all emailLocalChar && emailDomainOk false domain
  | _ => false

/-- Model of `ConfidenceScorer._email_confidence`. -/
def emailConfidence (value : JValue) : ℚ :=
  match value.asStr? with
  | none => 1/5
  | some s =>
      if withFinalNewline emailPatBody s then 95/100
      else if strContains s "@" && strContains s "." then 3/5
      else 1/5

/-- Phone-number cleaning `re.sub(r"[\s\-\(\)\.]", "", value)`. -/
def cleanPhone (s : String) : String :=
  ⟨s.toList.filter fun c => !(pySpace c || c = '-' || c = '(' || c = ')' || c = '.')⟩

/-- Regex `^\+?1?\d{10}$`, body shape (with regex backtracking over the two
optional prefixes). -/
def phonePat10Body (l : List Char) : Bool :=
  let tenDigits : List Char → Bool := fun l => l.length = 10 && l.all pyDigit
  let afterPlus : List Char → Bool := fun l =>
    (match l with
     | '1' :: r => tenDigits r
     | _ => false) || tenDigits l
  match l with
  | '+' :: rest => afterPlus rest
  | _ => afterPlus l

/-- Regex `^\d{7,15}$`, body shape. -/
def phonePat7to15Body (l : List Char) : Bool :=
  7 ≤ l.length && l.length ≤ 15 && l.all pyDigit

/-- Model of `ConfidenceScorer._phone_confidence`. -/
def phoneConfidence (value : JValue) : ℚ :=
  match value.asStr? with
  | none => 1/5
  | some s =>
      let clean := cleanPhone s
      if withFinalNewline phonePat10Body clean then 9/10
      else if withFinalNewline phonePat7to15Body clean then 7/10
      else 3/10

/-- Model of `", ".join(pieces)`. -/
def joinComma : List String → String
  | [] => ""
  | [x] => x
  | x :: rest => x ++ ", " ++ joinComma rest

mutual

/-- Model of `str(v)` for building the text-presence probe.  Numeric and container
rendering is idealised (the `int`/`float` distinction and `repr` escaping
are not modelled); it only influences heuristic text matching, never a
verified claim. -/
def pyStr : JValue → String
  | .null => "None"
  | .bool true => "True"
  | .bool false => "False"
  | .num q => toString q
  | .str s => s
  | .arr l => "[" ++ joinComma (pyReprList l) ++ "]"
  | .obj l => "\x7b" ++ joinComma (pyReprObj l) ++ "\x7d"

/-- Model of `repr(v)` for container elements (strings quoted). -/
def pyRepr : JValue → String
  | .null => "None"
  | .bool true => "True"
  | .bool false => "False"
  | .num q => toString q
  | .str s => "\x27" ++ s ++ "\x27"
  | .arr l => "[" ++ joinComma (pyReprList l) ++ "]"
  | .obj l => "\x7b" ++ joinComma (pyReprObj l) ++ "\x7d"

/-- Model of `repr` of list elements. -/
def pyReprList : List JValue → List String
  | [] => []
  | v :: rest => pyRepr v :: pyReprList rest

/-- Model of `repr` of dict entries. -/
def pyReprObj : List (String × JValue) → List String
  | [] => []
  | (k, v) :: rest => ("\x27" ++ k ++ "\x27: " ++ pyRepr v) :: pyReprObj rest

end

/-- Model of `ConfidenceScorer._text_presence_confidence`. -/
def textPresenceConfidence (value : String) (originalText : String) : ℚ :=
  if value = "" || originalText = "" then 0
  else if strContains originalText value then 9/10
  else if strContains (pyLower originalText) (pyLower value) then 85/100
  else if 5 < value.length then
    let words := pySplitWs value
    let matchCount := (words.filter fun w => strContains (pyLower originalText) (pyLower w)).length
    if 0 < matchCount then 3/10 + ((matchCount : ℚ) / (words.length : ℚ)) * (2/5)
    else 1/10
  else 1/10

/-- Model of `ConfidenceScorer._format_confidence`. -/
def formatConfidence (fieldPath : String) (value : JValue) : ℚ :=
  if value.isNull then 0
  else if strContains (pyLower fieldPath) "amount" || strContains (pyLower fieldPath) "total" then
    if value.asNum?.isSome then 4/5 else 3/10
  else if strContains (pyLower fieldPath) "quantity" then
    match value.asNum? with
    | some q => if 0 ≤ q then 4/5 else 2/5
    | none => 2/5
  else if strContains (pyLower fieldPath) "date" then
    match value.asStr? with
    | some s => if 8 ≤ s.length then 7/10 else 3/10
    | none => 3/10
  else 1/2

/-- Model of `ConfidenceScorer._calculate_heuristic_confidence`: mean of the
applicable field-specific adjustments plus the text-presence and format
scores. -/
def calculateHeuristicConfidence (fieldPath : String) (value : JValue)
    (originalText : String) : ℚ :=
  if value.isNull || value.eqStr "" then 0
  else
    let lowerPath := pyLower fieldPath
    let adjustments : List ℚ :=
      (if strContains lowerPath "date" then [dateConfidence value] else []) ++
      (if strContains lowerPath "amount" || strContains lowerPath "total" ||
          strContains lowerPath "cost" then [amountConfidence value] else []) ++
      (if strContains lowerPath "number" || strEndsWith fieldPath "_number" then
        [numberConfidence value originalText] else []) ++
      (if strContains lowerPath "name" then [nameConfidence value originalText] else []) ++
      (if strContains lowerPath "email" then [emailConfidence value] else []) ++
      (if strContains lowerPath "phone" then [phoneConfidence value] else []) ++
      [textPresenceConfidence (pyStr value) originalText,
       formatConfidence fieldPath value]
    if !adjustments.isEmpty then npMean adjustments else 1/2

/-- Model of `ConfidenceScorer.calculate_field_confidence`: 0.0 for null values,
otherwise the heuristic score, fused `0.7*model + 0.3*heuristic` when a
model confidence is present, clamped to `[0, 1]`. -/
def calculateFieldConfidence (fieldPath : String) (value : JValue)
    (originalText : String) (geminiConfidence : Option ℚ) : ℚ :=
  if value.isNull then 0
  else
    let heuristic := calculateHeuristicConfidence fieldPath value originalText
    let final :=
      match geminiConfidence with
      | some g => (7/10) * g + (3/10) * heuristic
      | none => heuristic
    max 0 (min 1 final)

/-- Default of the `low_confidence_threshold` constructor argument. -/
def defaultLowConfidenceThreshold : ℚ := 7/10

/-- The sort key `key=lambda x: x[1]` of `identify_low_confidence_fields`:
compare field entries by their confidence score. -/
def scoreLE (a b : String × ℚ) : Prop := a.2 ≤ b.2

instance : DecidableRel scoreLE := fun a b => inferInstanceAs (Decidable (a.2 ≤ b.2))

instance : IsTotal (String × ℚ) scoreLE := ⟨fun a b => le_total a.2 b.2⟩

instance : IsTrans (String × ℚ) scoreLE := ⟨fun _ _ _ hab hbc => le_trans hab hbc⟩

/-- Model of `ConfidenceScorer.identify_low_confidence_fields`: keep the fields with
score strictly below the threshold, then sort ascending by score
(`list.sort` is a stable ascending sort, modelled by insertion sort). -/
def identifyLowConfidenceFields (threshold : ℚ) (fieldConfidences : List (String × ℚ)) :
    List (String × ℚ) :=
  List.insertionSort scoreLE (fieldConfidences.filter fun p => p.2 < threshold)

end ConfidenceScorer

/-! ## Regular-expression search engine for the classifier patterns

`re.search` of the patterns in `DocumentClassifier._pattern_matching` is
embedded with a Brzozowski-derivative matcher over a small regex AST. -/

/-- Regex AST: empty word, character class, sequencing, alternation, star. -/
inductive RE : Type where
  | eps : RE
  | cls : (Char → Bool) → RE
  | seq : RE → RE → RE
  | alt : RE → RE → RE
  | star : RE → RE

namespace RE

/-- Does the regex accept the empty word? -/
def nullable : RE → Bool
  | .eps => true
  | .cls _ => false
  | .seq a b => nullable a && nullable b
  | .alt a b => nullable a || nullable b
  | .star _ => true

/-- Brzozowski derivative with respect to a character. -/
def deriv : RE → Char → RE
  | .eps, _ => .cls fun _ => false
  | .cls p, c => if p c then .eps else .cls fun _ => false
  | .seq a b, c =>
      if nullable a then .alt (.seq (deriv a c) b) (deriv b c)
      else .seq (deriv a c) b
  | .alt a b, c => .alt (deriv a c) (deriv b c)
  | .star a, c => .seq (deriv a c) (.star a)

/-- Does the regex match some prefix of the character list? -/
def matchAtStart (r : RE) : List Char → Bool
  | [] => nullable r
  | c :: rest => nullable r || matchAtStart (deriv r c) rest

/-- Model of `re.search`: does the regex match some substring? -/
def searchList (r : RE) : List Char → Bool
  | [] => nullable r
  | c :: rest => matchAtStart r (c :: rest) || searchList r rest

/-- Model of `re.search(pattern, s)`. -/
def search (r : RE) (s : String) : Bool := searchList r s.toList

/-- Literal character. -/
def ch (c : Char) : RE := .cls (· = c)

/-- Literal string. -/
def lit (s : String) : RE := s.toList.foldr (fun c acc => .seq (ch c) acc) .eps

/-- Model of `\s*`. -/
def wsStar : RE := .star (.cls pySpace)

/-- Model of `\d+`. -/
def digitsPlus : RE := .seq (.cls pyDigit) (.star (.cls pyDigit))

/-- Model of `x?`. -/
def opt (r : RE) : RE := .alt .eps r

/-- Model of `.*` (without `re.DOTALL`: any character except a newline). -/
def dotStar : RE := .star (.cls (· ≠ '\n'))

end RE

/-! ## DocumentClassifier (`src/utils/doc_classifier.py`) -/

namespace DocumentClassifier

/-- Model of `DocumentClassifier.invoice_keywords`. -/
def invoiceKeywords : List String :=
  ["invoice", "bill to", "ship to", "subtotal", "tax", "total due",
   "invoice number", "invoice date", "due date", "remit to",
   "item", "description", "quantity", "rate", "amount"]

/-- Model of `DocumentClassifier.bill_keywords`. -/
def billKeywords : List String :=
  ["statement", "account number", "billing period", "previous balance",
   "payment due", "current charges", "service period", "usage",
   "meter reading", "kilowatt", "gallons", "minutes"]

/-- Model of `DocumentClassifier.prescription_keywords`. -/
def prescriptionKeywords : List String :=
  ["prescription", "rx", "medication", "prescriber", "pharmacy",
   "patient", "dosage", "instructions", "refill", "ndc",
   "generic", "brand", "tablet", "capsule", "mg", "ml"]

/-- Model of `DocumentClassifier._count_keywords`: how many keywords occur in the
(lowercased) text. -/
def countKeywords (text : String) (keywords : List String) : ℕ :=
  (keywords.filter fun k => strContains text k).length

/-- The five invoice `re.search` patterns of `_pattern_matching`. -/
def invoicePatterns : List RE :=
  [.seq (RE.lit "invoice") (.seq RE.wsStar (.seq (RE.opt (RE.ch '#'))
     (.seq RE.wsStar RE.digitsPlus))),
   .seq (RE.lit "invoice") (.seq RE.wsStar (RE.lit "number")),
   .seq (RE.lit "bill") (.seq RE.wsStar (RE.lit "to:")),
   .seq (RE.lit "subtotal") (.seq RE.dotStar (RE.ch '$')),
   .seq (RE.lit "tax") (.seq RE.dotStar (.seq (RE.ch '$') (.seq RE.dotStar
     (.seq (RE.lit "total") (.seq RE.dotStar (RE.ch '$'))))))]

/-- The five bill `re.search` patterns of `_pattern_matching`. -/
def billPatterns : List RE :=
  [.seq (RE.lit "account") (.seq RE.wsStar (.seq (RE.opt (RE.ch '#'))
     (.seq RE.wsStar RE.digitsPlus))),
   .seq (RE.lit "statement") (.seq RE.wsStar (RE.lit "date")),
   .seq (RE.lit "billing") (.seq RE.wsStar (RE.lit "period")),
   .seq (RE.lit "previous") (.seq RE.wsStar (.seq (RE.lit "balance")
     (.seq RE.dotStar (RE.ch '$')))),
   .seq (RE.lit "payment") (.seq RE.wsStar (.seq (RE.lit "due")
     (.seq RE.dotStar (RE.ch '$'))))]

/-- The five prescription `re.search` patterns of `_pattern_matching`. -/
def prescriptionPatterns : List RE :=
  [.seq (RE.lit "rx") (.seq RE.wsStar (.seq (RE.opt (RE.ch '#'))
     (.seq RE.wsStar RE.digitsPlus))),
   .seq (RE.lit "prescription") (.seq RE.wsStar (.seq (RE.opt (RE.ch '#'))
     (.seq RE.wsStar RE.digitsPlus))),
   .seq RE.digitsPlus (.seq RE.wsStar (.seq (RE.lit "mg") (.seq RE.wsStar
     (RE.lit "tablet")))),
   .seq (RE.lit "take") (.seq RE.wsStar (.seq RE.digitsPlus (.seq RE.dotStar
     (RE.lit "daily")))),
   .seq (RE.lit "refill") (.seq RE.dotStar RE.digitsPlus)]

/-- Model of `DocumentClassifier._pattern_matching`: two points per matching
pattern, for each document type. -/
def patternScore (text : String) (patterns : List RE) : ℕ :=
  2 * (patterns.filter fun r => RE.search r text).length

/-- The combined `(invoice_total, bill_total, prescription_total)` keyword
and pattern scores computed by `classify_by_heuristics` on the lowercased
text. -/
def heuristicScores (text : String) : ℕ × ℕ × ℕ :=
  let tl := pyLower text
  (countKeywords tl invoiceKeywords + patternScore tl invoicePatterns,
   countKeywords tl billKeywords + patternScore tl billPatterns,
   countKeywords tl prescriptionKeywords + patternScore tl prescriptionPatterns)

/-- Model of `max(scores, key=scores.get)`: the first maximal entry in insertion
order (invoice, bill, prescription). -/
def maxType (i b p : ℕ) : String :=
  if i ≥ b && i ≥ p then "invoice" else if b ≥ p then "bill" else "prescription"

/-- The heuristic confidence computed from the three scores:
`sorted(scores.values(), reverse=True)[1]` is the second-largest score
with multiplicity; with a positive runner-up the confidence is the margin
ratio capped at 0.95, otherwise the top score over 10 capped at 0.9. -/
def heuristicConfidence (i b p : ℕ) : ℚ :=
  let maxScore := max i (max b p)
  let second := max (min i b) (min (max i b) p)
  if 0 < second then min (95/100) ((maxScore : ℚ) / ((maxScore : ℚ) + (second : ℚ)))
  else min (9/10) ((maxScore : ℚ) / 10)

/-- Model of `DocumentClassifier.classify_by_heuristics`. -/
def classifyByHeuristics (text : String) : Option String × ℚ :=
  let scores := heuristicScores text
  let i := scores.1
  let b := scores.2.1
  let p := scores.2.2
  if max i (max b p) = 0 then (none, 0)
  else
    let confidence := heuristicConfidence i b p
    if confidence < 3/5 then (none, confidence)
    else (some (maxType i b p), confidence)

/-- Behaviour of the model-service collaborator as observed by
`classify_with_gemini`: either `call_gemini` returns a response whose
`text` field is the given string (an API error surfaces as text `""`), or
an exception escapes into the `except` branch. -/
inductive GeminiBehavior : Type where
  | responds : String → GeminiBehavior
  | raises : GeminiBehavior

/-- Model of `DocumentClassifier.classify_with_gemini`: a valid single-word answer
gives confidence 0.75, an invalid answer falls back to `("invoice", 0.5)`,
an exception to `("invoice", 0.3)`. -/
def classifyWithGemini (b : GeminiBehavior) : String × ℚ :=
  match b with
  | .responds t =>
      let classification := pyLower (pyStrip t)
      if classification = "invoice" || classification = "bill" ||
          classification = "prescription" then
        (classification, 75/100)
      else ("invoice", 1/2)
  | .raises => ("invoice", 3/10)

/-- Result of `classify`, instrumented with whether the model-service
collaborator was actually invoked. -/
structure ClassifyOutcome where
  result : String × ℚ
  consulted : Bool
deriving Repr

/-- Model of `DocumentClassifier.classify`: heuristics first; the heuristic result
is returned directly if its type is non-null and its confidence exceeds
0.7; the model service is consulted only when supplied and the heuristic
confidence is strictly below 0.7, its result winning exactly when its
confidence exceeds the heuristic one; final fallback `("invoice", 0.3)`. -/
def classify (text : String) (gemini : Option GeminiBehavior) : ClassifyOutcome :=
  let h := classifyByHeuristics text
  let docType := h.1
  let confidence := h.2
  if docType.isSome && confidence > 7/10 then
    ⟨(docType.getD "", confidence), false⟩
  else
    match gemini with
    | some b =>
        if confidence < 7/10 then
          let g := classifyWithGemini b
          if g.2 > confidence then ⟨g, true⟩
          else
            match docType with
            | some d => ⟨(d, confidence), true⟩
            | none => ⟨("invoice", 3/10), true⟩
        else
          match docType with
          | some d => ⟨(d, confidence), false⟩
          | none => ⟨("invoice", 3/10), false⟩
    | none =>
        match docType with
        | some d => ⟨(d, confidence), false⟩
        | none => ⟨("invoice", 3/10), false⟩

end DocumentClassifier

/-! ## GeminiExtractor (`src/utils/extractor.py`)

`call_gemini` catches every API exception internally and returns a
response dictionary; its observable outcome is either a text (`'error'`
key absent) or an error string (`'error'` key present, text empty).
`json.loads` is abstracted as a parameter `jsonLoads : String → Option
JValue` (`none` models `json.JSONDecodeError`). -/

/-- Observable outcome of one `call_gemini` call. -/
inductive CallResult : Type where
  | ok : String → CallResult
  | err : String → CallResult

namespace GeminiExtractor

/-- Model of `GeminiExtractor._extract_json_from_text`: `re.search(r"\{.*\}", text,
re.DOTALL)` yields the span from the first opening to the last closing
brace (greedy `.*` with DOTALL), the bracket variant likewise. -/
def extractJsonFromText (text : String) : Option String :=
  let l := text.toList
  let span : Char → Char → Option String := fun o c =>
    match l.indexOf? o, (l.length - 1 - l.reverse.indexOf c : ℕ) with
    | some i, j => if i < j && (l.contains c) then some ⟨(l.drop i).take (j - i + 1)⟩ else none
    | none, _ => none
  match span '\x7b' '\x7d' with
  | some s => some s
  | none => span '[' ']'

/-- One attempt record of `self_consistency_extraction` (keys that are
present only in some of the Python dicts are `Option`s). -/
structure AttemptRecord where
  data : Option JValue
  attempt : ℕ
  success : Bool
  error : Option String
  warning : Option String
deriving Repr

/-- The attempt record produced for attempt `i` from the call outcome:
parse the raw text, salvage with `_extract_json_from_text` on failure,
record an error entry when both fail or when the call itself failed. -/
def attemptRecord (jsonLoads : String → Option JValue) (call : CallResult) (i : ℕ) :
    AttemptRecord :=
  match call with
  | .err e => ⟨none, i + 1, false, some e, none⟩
  | .ok t =>
      match jsonLoads t with
      | some d => ⟨some d, i + 1, true, none, none⟩
      | none =>
          match extractJsonFromText t with
          | some cleaned =>
              match jsonLoads cleaned with
              | some d => ⟨some d, i + 1, true, none, some "Cleaned JSON"⟩
              | none => ⟨none, i + 1, false, some "JSON parsing failed", none⟩
          | none => ⟨none, i + 1, false, some "JSON parsing failed", none⟩

/-- Result dictionary of `self_consistency_extraction`; keys present only
in one of the two return shapes are `Option`s. -/
structure SelfConsistencyResult where
  data : Option JValue
  success : Bool
  error : Option String
  consistencyRate : Option ℚ
  successfulAttempts : Option ℕ
  totalAttempts : Option ℕ
  results : List AttemptRecord
deriving Repr

/-- Model of `num_runs = num_runs or config.SELF_CONSISTENCY_RUNS`: a missing or
falsy (zero) run count falls back to the configured default. -/
def effectiveRuns (numRuns : Option ℕ) (configRuns : ℕ) : ℕ :=
  match numRuns with
  | none => configRuns
  | some n => if n = 0 then configRuns else n

/-- Model of `GeminiExtractor.self_consistency_extraction`, parameterised by the
call outcomes of the individual attempts. -/
def selfConsistencyExtraction (jsonLoads : String → Option JValue)
    (calls : ℕ → CallResult) (numRuns : Option ℕ) (configRuns : ℕ) :
    SelfConsistencyResult :=
  let n := effectiveRuns numRuns configRuns
  let results := (List.range n).map fun i => attemptRecord jsonLoads (calls i) i
  let successful := results.filter fun r => r.success
  match successful with
  | [] =>
      { data := none, success := false, error := some "All extraction attempts failed",
        consistencyRate := none, successfulAttempts := none, totalAttempts := none,
        results := results }
  | first :: _ =>
      { data := first.data, success := true, error := none,
        consistencyRate := some ((successful.length : ℚ) / (n : ℚ)),
        successfulAttempts := some successful.length, totalAttempts := some n,
        results := results }

mutual

/-- Model of `GeminiExtractor._default_confidence_scores`: depth-first walk that
assigns 0.5 to every scalar reached as a dict value, descending into
nested dicts and lists; scalar elements of lists are skipped. -/
def addScores : JValue → String → List (String × ℚ)
  | .obj l, prefix0 => addScoresObj l prefix0
  | .arr l, prefix0 => addScoresArr l prefix0 0
  | _, _ => []

/-- Walk of the entries of a dict. -/
def addScoresObj : List (String × JValue) → String → List (String × ℚ)
  | [], _ => []
  | (key, value) :: rest, prefix0 =>
      let fieldPath := if prefix0 = "" then key else prefix0 ++ "." ++ key
      (match value with
       | .obj l => addScoresObj l fieldPath
       | .arr l => addScoresArr l fieldPath 0
       | _ => [(fieldPath, 1/2)]) ++ addScoresObj rest prefix0

/-- Walk of the elements of a list (`enumerate`); only dict or list
elements are descended into. -/
def addScoresArr : List JValue → String → ℕ → List (String × ℚ)
  | [], _, _ => []
  | item :: rest, prefix0, i =>
      (match item with
       | .obj l => addScoresObj l (prefix0 ++ "." ++ toString i)
       | .arr l => addScoresArr l (prefix0 ++ "." ++ toString i) 0
       | _ => []) ++ addScoresArr rest prefix0 (i + 1)

end

/-- Model of `GeminiExtractor._default_confidence_scores`. -/
def defaultConfidenceScores (data : JValue) : List (String × ℚ) :=
  addScores data ""

/-- Validation of one model-reported confidence score: numeric (including
`bool`) and within `[0, 1]` is kept as a float, anything else becomes
0.5. -/
def validateScore (score : JValue) : ℚ :=
  match score.asNum? with
  | some q => if 0 ≤ q && q ≤ 1 then q else 1/2
  | none => 1/2

/-- Model of `GeminiExtractor.assess_confidence`, parameterised by the call outcome
and the abstract JSON parser.  A call error, an empty (stripped) response
text, a parse failure, and a parse result that is not a dict (whose
`.items()` raises, caught by the outer handler) all fall back to the
default scores. -/
def assessConfidence (jsonLoads : String → Option JValue) (data : JValue)
    (call : CallResult) : List (String × ℚ) :=
  match call with
  | .err _ => defaultConfidenceScores data
  | .ok text =>
      let responseText := pyStrip text
      if responseText = "" then defaultConfidenceScores data
      else
        match jsonLoads responseText with
        | some (.obj scores) => scores.map fun p => (p.1, validateScore p.2)
        | some _ => defaultConfidenceScores data
        | none => defaultConfidenceScores data

/-- Outcome of the body of `fix_validation_errors` before its `except`
handlers: an exception while building the prompt (caught by the outer
handler), or a `call_gemini` outcome. -/
inductive FixOutcome : Type where
  | exn : String → FixOutcome
  | call : CallResult → FixOutcome

/-- Model of `GeminiExtractor.fix_validation_errors`: the model response replaces
the record only when the call succeeded and its text parses; every failure
path returns the original record, and the function is total (no exception
crosses the boundary). -/
def fixValidationErrors (jsonLoads : String → Option JValue) (data : JValue)
    (_validationErrors : List String) (outcome : FixOutcome) : JValue :=
  match outcome with
  | .exn _ => data
  | .call (.err _) => data
  | .call (.ok t) =>
      match jsonLoads t with
      | some fixed => fixed
      | none => data

end GeminiExtractor

/-! ## DataValidator (`src/utils/validation.py`)

The validators mutate a shared result dictionary and may raise; they are
embedded in a state-threading style `VState → VState × Option PyErr` so
that mutations performed before an exception survive, exactly as the
mutated Python dict does. -/

/-- One entry of `result['field_validations']`. -/
structure FieldValidation where
  isValid : Bool
  value : JValue
  ftype : String
deriving Repr

/-- The mutable part of the validation result dictionary. -/
structure VState where
  errors : List String
  warnings : List String
  fieldValidations : List (String × FieldValidation)
deriving Repr

/-- A validator step: final state plus an escaped exception, if any. -/
abbrev VResult := VState × Option PyErr

/-- Normal completion. -/
def vdone (r : VState) : VResult := (r, none)

/-- Sequencing: the continuation runs only when no exception escaped. -/
def vseq (x : VResult) (f : VState → VResult) : VResult :=
  match x with
  | (r, none) => f r
  | e => e

/-- Run a fallible pure computation inside a validator step. -/
def vlift {α : Type} (x : Except PyErr α) (f : α → VState → VResult) (r : VState) : VResult :=
  match x with
  | .ok a => f a r
  | .error e => (r, some e)

/-- A `for` loop over a list of items, stopping at the first exception. -/
def vfor {α : Type} (step : α → VState → VResult) : List α → VState → VResult
  | [], r => (r, none)
  | a :: rest, r => vseq (step a r) (vfor step rest)

/-- Model of `result['errors'].append(m)`. -/
def addError (m : String) (r : VState) : VState := { r with errors := r.errors ++ [m] }

/-- Model of `result['warnings'].append(m)`. -/
def addWarning (m : String) (r : VState) : VState := { r with warnings := r.warnings ++ [m] }

/-- Model of `f"{x:.2f}"` (two decimal places; Python's round-half-even on binary
floats is idealised as rounding on the rational). -/
def fmt2 (q : ℚ) : String :=
  let scaled : ℤ := round (q * 100)
  let sign := if scaled < 0 then "-" else ""
  let n := scaled.natAbs
  sign ++ toString (n / 100) ++ "." ++ (if n % 100 < 10 then "0" else "") ++ toString (n % 100)

namespace DataValidator

/-- Model of `_validate_date`'s format list, in source order: first successful
parse wins and is immediately checked for a reasonable year. -/
def tryDateFormats (s : String) : Option Date :=
  (strptimeYMD '-' s).orElse fun _ =>
    (strptimeMDY '/' s).orElse fun _ =>
      (strptimeDMY '/' s).orElse fun _ =>
        (strptimeMDY '-' s).orElse fun _ => strptimeDMY '-' s

/-- Model of `DataValidator._validate_date` (the current year is a parameter,
read from the clock in the source). -/
def validateDateRule (currentYear : ℤ) (v : JValue) : Bool × String :=
  match v.asStr? with
  | none => (false, "Date must be a string")
  | some s =>
      if pyStrip s = "" then (false, "Date cannot be empty")
      else
        match tryDateFormats s with
        | some d =>
            if (d.year : ℤ) < 1900 || (d.year : ℤ) > currentYear + 10 then
              (false, "Date year " ++ toString d.year ++ " seems unreasonable")
            else (true, "")
        | none =>
            (false, "Invalid date format: " ++ s ++
              ". Expected formats: YYYY-MM-DD, MM/DD/YYYY, etc.")

/-- Model of `DataValidator._validate_amount`. -/
def validateAmountRule (v : JValue) : Bool × String :=
  if v.isNull then (false, "Amount cannot be null")
  else
    match v.asNum? with
    | some q => if q < 0 then (false, "Amount cannot be negative") else (true, "")
    | none =>
        match v.asStr? with
        | some s =>
            let clean : String := ⟨s.toList.filter fun c => !(c = '$' || c = ',' || pySpace c)⟩
            match parseFloatQ clean with
            | some a => if a < 0 then (false, "Amount cannot be negative") else (true, "")
            | none => (false, "Invalid amount format: " ++ s)
        | none => (false, "Amount must be a number, got " ++ v.typeName)

/-- Model of `DataValidator._validate_number`. -/
def validateNumberRule (v : JValue) : Bool × String :=
  match v.asStr? with
  | none => (false, "Number must be a string")
  | some s =>
      if pyStrip s = "" then (false, "Number cannot be empty")
      else if 50 < s.length then (false, "Number seems too long")
      else (true, "")

/-- Model of `DataValidator._validate_email`. -/
def validateEmailRule (v : JValue) : Bool × String :=
  match v.asStr? with
  | none => (false, "Email must be a string")
  | some s =>
      if withFinalNewline ConfidenceScorer.emailPatBody s then (true, "")
      else (false, "Invalid email format: " ++ s)

/-- Regex `^\+?1?\d{10,15}$`, body shape. -/
def phonePat10to15Body (l : List Char) : Bool :=
  let dRun : List Char → Bool := fun l => 10 ≤ l.length && l.length ≤ 15 && l.all pyDigit
  let afterPlus : List Char → Bool := fun l =>
    (match l with
     | '1' :: r => dRun r
     | _ => false) || dRun l
  match l with
  | '+' :: rest => afterPlus rest
  | _ => afterPlus l

/-- Model of `DataValidator._validate_phone`. -/
def validatePhoneRule (v : JValue) : Bool × String :=
  match v.asStr? with
  | none => (false, "Phone must be a string")
  | some s =>
      if withFinalNewline phonePat10to15Body (ConfidenceScorer.cleanPhone s) then (true, "")
      else (false, "Invalid phone format: " ++ s)

/-- Model of `DataValidator._validate_currency`. -/
def validateCurrencyRule (v : JValue) : Bool × String :=
  match v.asStr? with
  | none => (false, "Currency must be a string")
  | some s =>
      if ["USD", "EUR", "GBP", "JPY", "CAD", "AUD", "CHF", "CNY"].contains (pyUpper s) then
        (true, "")
      else (false, "Unknown currency code: " ++ s)

/-- The `validation_rules` dispatch table. -/
def applyRule (currentYear : ℤ) (ftype : String) (v : JValue) : Bool × String :=
  if ftype = "date" then validateDateRule currentYear v
  else if ftype = "amount" then validateAmountRule v
  else if ftype = "number" then validateNumberRule v
  else if ftype = "email" then validateEmailRule v
  else if ftype = "phone" then validatePhoneRule v
  else validateCurrencyRule v

/-- The keys of `validation_rules`. -/
def ruleTypes : List String := ["date", "amount", "number", "email", "phone", "currency"]

/-- Model of `DataValidator._validate_field_type`. -/
def validateFieldType (currentYear : ℤ) (data : JValue) (field ftype : String) :
    VState → VResult :=
  vlift (data.pyContains field) fun present =>
    if !present then vdone
    else
      vlift (data.pyGetItem field) fun value =>
        if value.isNull then vdone
        else if ruleTypes.contains ftype then
          let rule := applyRule currentYear ftype value
          fun r =>
            let r := { r with
              fieldValidations := r.fieldValidations ++ [(field, ⟨rule.1, value, ftype⟩)] }
            if !rule.1 then vdone (addError ("Field \x27" ++ field ++ "\x27: " ++ rule.2) r)
            else vdone r
        else fun r =>
          vdone (addWarning ("No validation rule for field type \x27" ++ ftype ++ "\x27") r)

/-- Model of `DataValidator._check_required_fields`. -/
def checkRequiredFields (data : JValue) (fields : List String) : VState → VResult :=
  vfor
    (fun field =>
      let emsg := "Required field \x27" ++ field ++ "\x27 is missing or empty"
      vlift (data.pyContains field) fun present =>
        if !present then fun r => vdone (addError emsg r)
        else
          vlift (data.pyGetItem field) fun v r =>
            if v.isNull || v.eqStr "" then vdone (addError emsg r) else vdone r)
    fields

/-- Model of `all(f in c and c[f] is not None for f in fields)`, with Python's
short-circuit evaluation. -/
def allFieldsPresent (container : JValue) : List String → Except PyErr Bool
  | [] => .ok true
  | f :: rest => do
      let present ← container.pyContains f
      if !present then pure false
      else do
        let v ← container.pyGetItem f
        if v.isNull then pure false else allFieldsPresent container rest

/-- The arithmetic of the item-level check:
`float(quantity) * float(unit_price)` and `float(total)`. -/
def invoiceItemArith (item : JValue) : Except PyErr (ℚ × ℚ) := do
  let vq ← item.pyGetItem "quantity"
  let q ← pyFloat vq
  let vp ← item.pyGetItem "unit_price"
  let p ← pyFloat vp
  let expected := q * p
  let vt ← item.pyGetItem "total"
  let t ← pyFloat vt
  pure (expected, t)

/-- One iteration of the required-field loop of
`_validate_invoice_item` (appends errors only, never warnings). -/
def invoiceItemFieldStep (item : JValue) (index : ℕ) (field : String) :
    VState → VResult :=
  let missMsg := "Item " ++ toString index ++ ": missing required field \x27" ++
    field ++ "\x27"
  vlift (item.pyContains field) fun present =>
    if !present then fun r => vdone (addError missMsg r)
    else
      vlift (item.pyGetItem field) fun v r =>
        if v.isNull then vdone (addError missMsg r)
        else if field = "quantity" || field = "unit_price" || field = "total" then
          let rule := validateAmountRule v
          if !rule.1 then
            vdone (addError ("Item " ++ toString index ++ ", field \x27" ++ field ++
              "\x27: " ++ rule.2) r)
          else vdone r
        else vdone r

/-- Model of `DataValidator._validate_invoice_item`. -/
def validateInvoiceItem (item : JValue) (index : ℕ) : VState → VResult := fun r =>
  vseq
    (vfor (invoiceItemFieldStep item index)
      ["description", "quantity", "unit_price", "total"] r)
    fun r =>
      match allFieldsPresent item ["quantity", "unit_price", "total"] with
      | .error e => (r, some e)
      | .ok false => vdone r
      | .ok true =>
          match invoiceItemArith item with
          | .ok q =>
              if 1/100 < |q.1 - q.2| then
                vdone (addWarning ("Item " ++ toString index ++ ": calculated total (" ++
                  fmt2 q.1 ++ ") doesn\x27t match stated total (" ++ fmt2 q.2 ++ ")") r)
              else vdone r
          | .error e => if e.isVEorTE then vdone r else (r, some e)

/-- The running subtotal over the items of
`_validate_invoice_totals`. -/
def calcSubtotal (items : List JValue) : Except PyErr ℚ :=
  items.foldlM
    (fun acc item => do
      let present ← item.pyContains "total"
      if present then do
        let t ← item.pyGetItem "total"
        if t.isNull then pure acc
        else do
          let x ← pyFloat t
          pure (acc + x)
      else pure acc)
    (0 : ℚ)

/-- The document-level arithmetic `float(subtotal) + float(tax_amount)`
versus `float(total_amount)`. -/
def invoiceTotalArith (data : JValue) : Except PyErr (ℚ × ℚ) := do
  let sv ← data.pyGetItem "subtotal"
  let s ← pyFloat sv
  let txv ← data.pyGetItem "tax_amount"
  let tx ← pyFloat txv
  let tv ← data.pyGetItem "total_amount"
  let t ← pyFloat tv
  pure (s + tx, t)

/-- The body of `_validate_invoice_totals` before its exception handler. -/
def validateInvoiceTotalsBody (data : JValue) : VState → VResult :=
  vlift (data.pyContains "items") fun present =>
    if !present then vdone
    else
      vlift (data.pyGetItem "items") fun items r =>
        match items with
        | .arr itemList =>
            match calcSubtotal itemList with
            | .error e => (r, some e)
            | .ok calculatedSubtotal =>
                vseq
                  (vlift (data.pyContains "subtotal") (fun sp =>
                    if !sp then vdone
                    else
                      vlift (data.pyGetItem "subtotal") fun sv =>
                        if sv.isNull then vdone
                        else
                          vlift (pyFloat sv) fun statedSubtotal r =>
                            if 1/100 < |calculatedSubtotal - statedSubtotal| then
                              vdone (addWarning ("Calculated subtotal (" ++
                                fmt2 calculatedSubtotal ++
                                ") doesn\x27t match stated subtotal (" ++
                                fmt2 statedSubtotal ++ ")") r)
                            else vdone r) r)
                  fun r =>
                    match allFieldsPresent data ["subtotal", "tax_amount", "total_amount"] with
                    | .error e => (r, some e)
                    | .ok false => vdone r
                    | .ok true =>
                        match invoiceTotalArith data with
                        | .error e => (r, some e)
                        | .ok q =>
                            if 1/100 < |q.1 - q.2| then
                              vdone (addWarning ("Calculated total (" ++ fmt2 q.1 ++
                                ") doesn\x27t match stated total (" ++ fmt2 q.2 ++ ")") r)
                            else vdone r
        | _ => vdone r

/-- Model of `DataValidator._validate_invoice_totals`: the body runs under
`try/except (ValueError, TypeError)`, which converts those exceptions into
a `Could not validate total calculations` warning (keeping all mutations
made before the exception). -/
def validateInvoiceTotals (data : JValue) : VState → VResult := fun r =>
  match validateInvoiceTotalsBody data r with
  | (r2, none) => (r2, none)
  | (r2, some e) =>
      if e.isVEorTE then
        vdone (addWarning ("Could not validate total calculations: " ++ e.msg) r2)
      else (r2, some e)

/-- The `datetime.strptime(value, "%Y-%m-%d")` call of the due-date check
(raises `TypeError` for non-strings, `ValueError` for bad formats). -/
def strptimeJ (v : JValue) : Except PyErr Date :=
  match v.asStr? with
  | some s =>
      match strptimeYMD '-' s with
      | some d => .ok d
      | none => .error (.valueError ("time data " ++ s ++ " does not match format"))
  | none => .error (.typeError "strptime() argument 1 must be str")

/-- Is `due_date` strictly before `date`? -/
def dueDateBefore (dateV dueV : JValue) : Except PyErr Bool := do
  let invoiceDate ← strptimeJ dateV
  let dueDate ← strptimeJ dueV
  pure (Date.lt dueDate invoiceDate)

/-- Model of `DataValidator._validate_invoice`. -/
def validateInvoice (currentYear : ℤ) (data : JValue) : VState → VResult := fun r =>
  vseq (checkRequiredFields data ["invoice_number", "date", "vendor", "total_amount"] r)
  fun r =>
  vseq (vlift (data.pyContains "date")
    (fun p => if p then validateFieldType currentYear data "date" "date" else vdone) r)
  fun r =>
  vseq
    (vlift (data.pyContains "due_date")
      (fun p r =>
        if !p then vdone r
        else
          vseq (validateFieldType currentYear data "due_date" "date" r) fun r =>
            vlift (data.pyContains "date")
              (fun dp r =>
                if !dp then vdone r
                else
                  vlift (data.pyGetItem "date")
                    (fun dateV r =>
                      if !dateV.truthy then vdone r
                      else
                        vlift (data.pyGetItem "due_date")
                          (fun dueV r =>
                            if !dueV.truthy then vdone r
                            else
                              match dueDateBefore dateV dueV with
                              | .ok true =>
                                  vdone (addError "Due date cannot be before invoice date" r)
                              | .ok false => vdone r
                              | .error (.valueError _) => vdone r
                              | .error e => (r, some e)) r) r) r) r)
  fun r =>
  vseq
    (vfor (fun field =>
      vlift (data.pyContains field)
        (fun p => if p then validateFieldType currentYear data field "amount" else vdone))
      ["total_amount", "subtotal", "tax_amount"] r)
  fun r =>
  vseq
    (vlift (data.pyContains "items")
      (fun p =>
        if !p then vdone
        else
          vlift (data.pyGetItem "items") fun items r =>
            match items with
            | .arr l => vfor (fun pair => validateInvoiceItem pair.2 pair.1) l.enum r
            | _ => vdone r) r)
  fun r => validateInvoiceTotals data r

/-- The arithmetic of `_validate_bill_calculations`:
`previous_balance + current_charges - payments` versus
`total_amount_due` (with `data.get('payments', 0)`). -/
def billArith (data : JValue) : Except PyErr (ℚ × ℚ) := do
  let pv ← data.pyGetItem "previous_balance"
  let previous ← pyFloat pv
  let cv ← data.pyGetItem "current_charges"
  let current ← pyFloat cv
  let payv ← data.pyDictGet "payments" (.num 0)
  let payments ← pyFloat payv
  let sv ← data.pyGetItem "total_amount_due"
  let stated ← pyFloat sv
  pure (previous + current - payments, stated)

/-- The body of `_validate_bill_calculations` before its handler. -/
def validateBillCalculationsBody (data : JValue) : VState → VResult := fun r =>
  match allFieldsPresent data ["previous_balance", "current_charges", "total_amount_due"] with
  | .error e => (r, some e)
  | .ok false => vdone r
  | .ok true =>
      match billArith data with
      | .error e => (r, some e)
      | .ok q =>
          if 1/100 < |q.1 - q.2| then
            vdone (addWarning ("Calculated total due (" ++ fmt2 q.1 ++
              ") doesn\x27t match stated total (" ++ fmt2 q.2 ++ ")") r)
          else vdone r

/-- Model of `DataValidator._validate_bill_calculations` with its
`except (ValueError, TypeError)` handler. -/
def validateBillCalculations (data : JValue) : VState → VResult := fun r =>
  match validateBillCalculationsBody data r with
  | (r2, none) => (r2, none)
  | (r2, some e) =>
      if e.isVEorTE then
        vdone (addWarning ("Could not validate bill calculations: " ++ e.msg) r2)
      else (r2, some e)

/-- Model of `DataValidator._validate_bill`. -/
def validateBill (currentYear : ℤ) (data : JValue) : VState → VResult := fun r =>
  vseq (checkRequiredFields data
    ["bill_number", "statement_date", "service_provider", "total_amount_due"] r)
  fun r =>
  vseq
    (vfor (fun field =>
      vlift (data.pyContains field)
        (fun p => if p then validateFieldType currentYear data field "date" else vdone))
      ["statement_date", "due_date"] r)
  fun r =>
  vseq
    (vfor (fun field =>
      vlift (data.pyContains field)
        (fun p => if p then validateFieldType currentYear data field "amount" else vdone))
      ["total_amount_due", "previous_balance", "current_charges", "payments",
       "minimum_payment"] r)
  fun r => validateBillCalculations data r

/-- Model of `DataValidator._validate_medication`. -/
def validateMedication (medication : JValue) (index : ℕ) : VState → VResult :=
  vfor (fun field =>
    let emsg := "Medication " ++ toString index ++ ": missing required field \x27" ++
      field ++ "\x27"
    vlift (medication.pyContains field) fun present =>
      if !present then fun r => vdone (addError emsg r)
      else
        vlift (medication.pyGetItem field) fun v r =>
          if !v.truthy then vdone (addError emsg r) else vdone r)
    ["name", "strength", "quantity", "directions"]

/-- Model of `DataValidator._validate_prescription`. -/
def validatePrescription (currentYear : ℤ) (data : JValue) : VState → VResult := fun r =>
  vseq (checkRequiredFields data
    ["prescription_number", "date_prescribed", "doctor", "patient", "medications"] r)
  fun r =>
  vseq
    (vfor (fun field =>
      vlift (data.pyContains field)
        (fun p => if p then validateFieldType currentYear data field "date" else vdone))
      ["date_prescribed", "date_filled"] r)
  fun r =>
  vseq
    (vlift (data.pyContains "medications")
      (fun p =>
        if !p then vdone
        else
          vlift (data.pyGetItem "medications") fun meds r =>
            match meds with
            | .arr l =>
                if l.isEmpty then vdone (addError "At least one medication is required" r)
                else vfor (fun pair => validateMedication pair.2 pair.1) l.enum r
            | _ => vdone r) r)
  fun r =>
  vfor (fun field =>
    vlift (data.pyContains field)
      (fun p => if p then validateFieldType currentYear data field "amount" else vdone))
    ["total_cost", "insurance_covered", "patient_pay"] r

/-- Model of `DataValidator._validate_common_fields`. -/
def validateCommonFields (currentYear : ℤ) (data : JValue) : VState → VResult :=
  vlift (data.pyContains "currency")
    (fun p => if p then validateFieldType currentYear data "currency" "currency" else vdone)

/-- The complete result of `validate_document`. -/
structure ValidationResult where
  isValid : Bool
  errors : List String
  warnings : List String
  fieldValidations : List (String × FieldValidation)
deriving Repr

/-- The final assembly of `validate_document`: on normal completion
`is_valid = (len(errors) == 0)`; an escaped exception is caught, appended
as a `Validation error` entry, and forces `is_valid = False`. -/
def assembleResult : VResult → ValidationResult
  | (r, none) => ⟨r.errors.isEmpty, r.errors, r.warnings, r.fieldValidations⟩
  | (r, some e) =>
      ⟨false, r.errors ++ ["Validation error: " ++ e.msg], r.warnings, r.fieldValidations⟩

/-- Model of `DataValidator.validate_document`: dispatch on the document type, run
the common validations, then assemble the result. -/
def validateDocument (currentYear : ℤ) (data : JValue) (docType : String) :
    ValidationResult :=
  let body : VState → VResult := fun r =>
    vseq
      (if docType = "invoice" then validateInvoice currentYear data r
       else if docType = "bill" then validateBill currentYear data r
       else if docType = "prescription" then validatePrescription currentYear data r
       else vdone r)
      fun r => validateCommonFields currentYear data r
  assembleResult (body ⟨[], [], []⟩)

end DataValidator

/-! ## Theorems -/

/-- C1: for every field path, value, original text, and optional model
confidence, `calculate_field_confidence` returns a score in the closed
interval `[0, 1]`, and returns exactly `0` when the value is null. -/
theorem C1_calculate_field_confidence_range (fieldPath : String) (value : JValue)
    (originalText : String) (geminiConfidence : Option ℚ) :
    0 ≤ ConfidenceScorer.calculateFieldConfidence fieldPath value originalText
        geminiConfidence ∧
    ConfidenceScorer.calculateFieldConfidence fieldPath value originalText
        geminiConfidence ≤ 1 ∧
    ConfidenceScorer.calculateFieldConfidence fieldPath JValue.null originalText
        geminiConfidence = 0 := by
  refine ⟨?_, ?_, rfl⟩ <;>
    · unfold ConfidenceScorer.calculateFieldConfidence
      split
      · norm_num
      · first
        | exact le_max_left 0 _
        | exact max_le (by norm_num) (min_le_left 1 _)

/-- C2: the source intends values matching the `MM-DD-YYYY` pattern to be
parsed as such (`%m-%d-%Y`), but that branch is unreachable: such values
have length 10 and contain a dash, so they are parsed as `%Y-%m-%d`, which
always fails.  At the failing input `"12-25-2023"` — a valid calendar date
matching the `MM-DD-YYYY` pattern, as its successful `%m-%d-%Y` parse
shows — the date sub-check therefore returns 0.4 instead of the claimed
0.9. -/
theorem C2_date_confidence_mmddyyyy_bug :
    ConfidenceScorer.matchDatePat3 "12-25-2023" = true ∧
    strptimeMDY '-' "12-25-2023" = some ⟨2023, 12, 25⟩ ∧
    isValidDate 2023 12 25 = true ∧
    ConfidenceScorer.dateConfidence (JValue.str "12-25-2023") = 2/5 :=
  ⟨rfl, rfl, rfl, rfl⟩

/-- C7: `identify_low_confidence_fields` returns exactly the entries whose
score is strictly below the threshold (a permutation of the filtered
input, so entries equal to the threshold are excluded), sorted ascending
by score; the configured default threshold is 0.7. -/
theorem C7_identify_low_confidence_fields_spec (threshold : ℚ)
    (fieldConfidences : List (String × ℚ)) :
    (ConfidenceScorer.identifyLowConfidenceFields threshold fieldConfidences).Perm
      (fieldConfidences.filter fun p => p.2 < threshold) ∧
    List.Sorted ConfidenceScorer.scoreLE
      (ConfidenceScorer.identifyLowConfidenceFields threshold fieldConfidences) ∧
    ConfidenceScorer.defaultLowConfidenceThreshold = 7/10 :=
  ⟨List.perm_insertionSort _ _, List.sorted_insertionSort _ _, rfl⟩

/-- C9: `fix_validation_errors` returns the original record unchanged on
every failure path — an exception while preparing the call (caught by the
outer handler), a model-service error, or an unparseable response — and,
being a total function into `JValue`, never raises across its boundary. -/
theorem C9_fix_validation_errors_returns_original (jsonLoads : String → Option JValue)
    (data : JValue) (validationErrors : List String) :
    (∀ m, GeminiExtractor.fixValidationErrors jsonLoads data validationErrors
      (.exn m) = data) ∧
    (∀ e, GeminiExtractor.fixValidationErrors jsonLoads data validationErrors
      (.call (.err e)) = data) ∧
    (∀ t, jsonLoads t = none →
      GeminiExtractor.fixValidationErrors jsonLoads data validationErrors
        (.call (.ok t)) = data) := by
  refine ⟨fun _ => rfl, fun _ => rfl, fun t ht => ?_⟩
  simp only [GeminiExtractor.fixValidationErrors, ht]

/-- Witness for C9 at a concrete failing parse. -/
theorem C9_fix_validation_errors_witness :
    GeminiExtractor.fixValidationErrors (fun _ => none) (JValue.obj [])
      ["err"] (.call (.ok "not json")) = JValue.obj [] :=
  (C9_fix_validation_errors_returns_original (fun _ => none) (JValue.obj [])
    ["err"]).2.2 "not json" rfl

mutual

/-- Every score emitted by the dict walk of
`_default_confidence_scores` is 0.5. -/
theorem addScoresObj_half :
    ∀ (l : List (String × JValue)) (pre : String) (p : String × ℚ),
      p ∈ GeminiExtractor.addScoresObj l pre → p.2 = 1/2
  | [], _, _, h => by rw [GeminiExtractor.addScoresObj] at h; simp at h
  | (k, v) :: rest, pre, p, h => by
      cases v with
      | obj l2 =>
          rw [GeminiExtractor.addScoresObj] at h
          rcases List.mem_append.mp h with h1 | h1
          · exact addScoresObj_half l2 _ p h1
          · exact addScoresObj_half rest pre p h1
      | arr l2 =>
          rw [GeminiExtractor.addScoresObj] at h
          rcases List.mem_append.mp h with h1 | h1
          · exact addScoresArr_half l2 _ 0 p h1
          · exact addScoresObj_half rest pre p h1
      | null =>
          simp only [GeminiExtractor.addScoresObj] at h
          rcases List.mem_append.mp h with h1 | h1
          · rw [List.mem_singleton.mp h1]
          · exact addScoresObj_half rest pre p h1
      | bool b =>
          simp only [GeminiExtractor.addScoresObj] at h
          rcases List.mem_append.mp h with h1 | h1
          · rw [List.mem_singleton.mp h1]
          · exact addScoresObj_half rest pre p h1
      | num q =>
          simp only [GeminiExtractor.addScoresObj] at h
          rcases List.mem_append.mp h with h1 | h1
          · rw [List.mem_singleton.mp h1]
          · exact addScoresObj_half rest pre p h1
      | str s =>
          simp only [GeminiExtractor.addScoresObj] at h
          rcases List.mem_append.mp h with h1 | h1
          · rw [List.mem_singleton.mp h1]
          · exact addScoresObj_half rest pre p h1

/-- Every score emitted by the list walk of
`_default_confidence_scores` is 0.5. -/
theorem addScoresArr_half :
    ∀ (l : List JValue) (pre : String) (i : ℕ) (p : String × ℚ),
      p ∈ GeminiExtractor.addScoresArr l pre i → p.2 = 1/2
  | [], _, _, _, h => by rw [GeminiExtractor.addScoresArr] at h; simp at h
  | item :: rest, pre, i, p, h => by
      cases item with
      | obj l2 =>
          rw [GeminiExtractor.addScoresArr] at h
          rcases List.mem_append.mp h with h1 | h1
          · exact addScoresObj_half l2 _ p h1
          · exact addScoresArr_half rest pre (i + 1) p h1
      | arr l2 =>
          rw [GeminiExtractor.addScoresArr] at h
          rcases List.mem_append.mp h with h1 | h1
          · exact addScoresArr_half l2 _ 0 p h1
          · exact addScoresArr_half rest pre (i + 1) p h1
      | null =>
          simp only [GeminiExtractor.addScoresArr] at h
          rcases List.mem_append.mp h with h1 | h1
          · exact absurd h1 (List.not_mem_nil p)
          · exact addScoresArr_half rest pre (i + 1) p h1
      | bool b =>
          simp only [GeminiExtractor.addScoresArr] at h
          rcases List.mem_append.mp h with h1 | h1
          · exact absurd h1 (List.not_mem_nil p)
          · exact addScoresArr_half rest pre (i + 1) p h1
      | num q =>
          simp only [GeminiExtractor.addScoresArr] at h
          rcases List.mem_append.mp h with h1 | h1
          · exact absurd h1 (List.not_mem_nil p)
          · exact addScoresArr_half rest pre (i + 1) p h1
      | str s =>
          simp only [GeminiExtractor.addScoresArr] at h
          rcases List.mem_append.mp h with h1 | h1
          · exact absurd h1 (List.not_mem_nil p)
          · exact addScoresArr_half rest pre (i + 1) p h1

end

/-- Every score of `_default_confidence_scores` is 0.5. -/
theorem defaultConfidenceScores_half (data : JValue) (p : String × ℚ)
    (h : p ∈ GeminiExtractor.defaultConfidenceScores data) : p.2 = 1/2 := by
  cases data with
  | obj l => exact addScoresObj_half l _ p h
  | arr l => exact addScoresArr_half l _ 0 p h
  | null => simp [GeminiExtractor.defaultConfidenceScores, GeminiExtractor.addScores] at h
  | bool b => simp [GeminiExtractor.defaultConfidenceScores, GeminiExtractor.addScores] at h
  | num q => simp [GeminiExtractor.defaultConfidenceScores, GeminiExtractor.addScores] at h
  | str s => simp [GeminiExtractor.defaultConfidenceScores, GeminiExtractor.addScores] at h

/-- C5 (amended): on every failure of the confidence assessment — service
error, empty stripped response, or parse failure — `assess_confidence`
falls back to `_default_confidence_scores`, which assigns 0.5 to every
field path it emits; its walk reaches scalars only as mapping values
(scalar elements of sequences are skipped and receive no score, as the
counterexample shows). -/
theorem C5_assess_confidence_fallback (jsonLoads : String → Option JValue)
    (data : JValue) :
    (∀ e, GeminiExtractor.assessConfidence jsonLoads data (.err e) =
      GeminiExtractor.defaultConfidenceScores data) ∧
    (∀ t, pyStrip t = "" → GeminiExtractor.assessConfidence jsonLoads data (.ok t) =
      GeminiExtractor.defaultConfidenceScores data) ∧
    (∀ t, jsonLoads (pyStrip t) = none →
      GeminiExtractor.assessConfidence jsonLoads data (.ok t) =
      GeminiExtractor.defaultConfidenceScores data) ∧
    (∀ p ∈ GeminiExtractor.defaultConfidenceScores data, p.2 = 1/2) := by
  refine ⟨fun _ => rfl, fun t ht => ?_, fun t ht => ?_, fun p hp =>
    defaultConfidenceScores_half data p hp⟩
  · simp [GeminiExtractor.assessConfidence, ht]
  · by_cases he : pyStrip t = ""
    · simp [GeminiExtractor.assessConfidence, he]
    · simp [GeminiExtractor.assessConfidence, he, ht]

/-- Witness for C5 at a concrete parse failure. -/
theorem C5_assess_confidence_fallback_witness :
    GeminiExtractor.assessConfidence (fun _ => none) (JValue.obj [("x", JValue.num 3)])
      (.ok "bad") =
      GeminiExtractor.defaultConfidenceScores (JValue.obj [("x", JValue.num 3)]) ∧
    ∀ p ∈ GeminiExtractor.defaultConfidenceScores (JValue.obj [("x", JValue.num 3)]),
      p.2 = 1/2 :=
  ⟨(C5_assess_confidence_fallback (fun _ => none) (JValue.obj [("x", JValue.num 3)])).2.2.1
      "bad" rfl,
   (C5_assess_confidence_fallback (fun _ => none)
      (JValue.obj [("x", JValue.num 3)])).2.2.2⟩

/-- C5 counterexample: for the record `{"a": [1]}` the fallback mapping is
empty — the scalar element of the sequence at leaf path `a.0` does not
receive a 0.5 score (nor any score), contradicting the claim that every
scalar leaf, including scalar elements of sequences, receives 0.5. -/
theorem C5_sequence_leaf_counterexample :
    GeminiExtractor.assessConfidence (fun _ => none)
      (JValue.obj [("a", JValue.arr [JValue.num 1])]) (.err "boom") = [] ∧
    (∀ q : ℚ, ("a.0", q) ∉ GeminiExtractor.assessConfidence (fun _ => none)
      (JValue.obj [("a", JValue.arr [JValue.num 1])]) (.err "boom")) := by
  have hempty : GeminiExtractor.assessConfidence (fun _ => none)
      (JValue.obj [("a", JValue.arr [JValue.num 1])]) (.err "boom") = [] := by
    simp [GeminiExtractor.assessConfidence, GeminiExtractor.defaultConfidenceScores,
      GeminiExtractor.addScores, GeminiExtractor.addScoresObj, GeminiExtractor.addScoresArr]
  refine ⟨hempty, fun q h => ?_⟩
  rw [hempty] at h
  exact absurd h (List.not_mem_nil _)

/-- C4 (amended): when every attempt fails, `self_consistency_extraction`
returns `success=false`, error `"All extraction attempts failed"` and the
full attempt log of all `n` attempts; the failure dictionary carries no
`successful_attempts` entry (rather than the value 0). -/
theorem C4_self_consistency_all_failed (jsonLoads : String → Option JValue)
    (calls : ℕ → CallResult) (numRuns : Option ℕ) (configRuns : ℕ)
    (h : ∀ i < GeminiExtractor.effectiveRuns numRuns configRuns,
      (GeminiExtractor.attemptRecord jsonLoads (calls i) i).success = false) :
    (GeminiExtractor.selfConsistencyExtraction jsonLoads calls numRuns
        configRuns).success = false ∧
    (GeminiExtractor.selfConsistencyExtraction jsonLoads calls numRuns
        configRuns).error = some "All extraction attempts failed" ∧
    (GeminiExtractor.selfConsistencyExtraction jsonLoads calls numRuns
        configRuns).successfulAttempts = none ∧
    (GeminiExtractor.selfConsistencyExtraction jsonLoads calls numRuns
        configRuns).results =
      (List.range (GeminiExtractor.effectiveRuns numRuns configRuns)).map
        (fun i => GeminiExtractor.attemptRecord jsonLoads (calls i) i) ∧
    (GeminiExtractor.selfConsistencyExtraction jsonLoads calls numRuns
        configRuns).results.length =
      GeminiExtractor.effectiveRuns numRuns configRuns := by
  have hfil : ((List.range (GeminiExtractor.effectiveRuns numRuns configRuns)).map
      (fun i => GeminiExtractor.attemptRecord jsonLoads (calls i) i)).filter
      (fun r => r.success) = [] := by
    rw [List.filter_eq_nil_iff]
    intro a ha
    rcases List.mem_map.mp ha with ⟨i, hi, rfl⟩
    simp [h i (List.mem_range.mp hi)]
  simp [GeminiExtractor.selfConsistencyExtraction, hfil]

/-- Witness for C4: two attempts, both failing with a service error. -/
theorem C4_self_consistency_all_failed_witness :
    (GeminiExtractor.selfConsistencyExtraction (fun _ => none) (fun _ => .err "x")
        (some 2) 3).success = false ∧
    (GeminiExtractor.selfConsistencyExtraction (fun _ => none) (fun _ => .err "x")
        (some 2) 3).successfulAttempts = none ∧
    (GeminiExtractor.selfConsistencyExtraction (fun _ => none) (fun _ => .err "x")
        (some 2) 3).results.length = 2 :=
  let h := C4_self_consistency_all_failed (fun _ => none) (fun _ => .err "x")
    (some 2) 3 (fun _ _ => rfl)
  ⟨h.1, h.2.2.1, h.2.2.2.2⟩

/-- C4 counterexample: with one failing attempt the result has
`success=false` and the claimed error message, but its
`successful_attempts` entry is absent (`none`), not 0 — the claim that the
result carries `successfulAttempts = 0` is false. -/
theorem C4_successful_attempts_counterexample :
    (GeminiExtractor.selfConsistencyExtraction (fun _ => none)
        (fun _ => .err "service unavailable") (some 1) 3).success = false ∧
    (GeminiExtractor.selfConsistencyExtraction (fun _ => none)
        (fun _ => .err "service unavailable") (some 1) 3).error =
      some "All extraction attempts failed" ∧
    (GeminiExtractor.selfConsistencyExtraction (fun _ => none)
        (fun _ => .err "service unavailable") (some 1) 3).results.length = 1 ∧
    (GeminiExtractor.selfConsistencyExtraction (fun _ => none)
        (fun _ => .err "service unavailable") (some 1) 3).successfulAttempts ≠
      some 0 :=
  ⟨rfl, rfl, rfl, fun h => Option.noConfusion h⟩

/-- Case analysis on `classify_by_heuristics`: a null type implies
confidence below 0.6, and a non-null type is one of the three
signatures. -/
theorem classifyByHeuristics_cases (text : String) (dt : Option String) (conf : ℚ)
    (h : DocumentClassifier.classifyByHeuristics text = (dt, conf)) :
    (dt = none → conf < 3/5) ∧
    (∀ d, dt = some d → d ∈ (["invoice", "bill", "prescription"] : List String)) := by
  simp only [DocumentClassifier.classifyByHeuristics] at h
  split at h
  · injection h with h1 h2
    subst h1
    subst h2
    exact ⟨fun _ => by norm_num, fun d hd => by simp at hd⟩
  · split at h
    next hlt =>
      injection h with h1 h2
      subst h1
      subst h2
      exact ⟨fun _ => hlt, fun d hd => by simp at hd⟩
    next hlt =>
      injection h with h1 h2
      subst h1
      subst h2
      refine ⟨fun hnone => by simp at hnone, fun d hd => ?_⟩
      injection hd with hd2
      rw [← hd2]
      simp only [DocumentClassifier.maxType]
      split_ifs <;> simp

/-- The model-service fallback always answers with one of the three
signatures. -/
theorem classifyWithGemini_mem (b : DocumentClassifier.GeminiBehavior) :
    (DocumentClassifier.classifyWithGemini b).1 ∈
      (["invoice", "bill", "prescription"] : List String) := by
  cases b with
  | responds t =>
      simp only [DocumentClassifier.classifyWithGemini]
      split_ifs with h
      · simp only [Bool.or_eq_true, decide_eq_true_eq] at h
        rcases h with (h1 | h1) | h1 <;> simp [h1]
      · simp
  | raises => simp [DocumentClassifier.classifyWithGemini]

/-- C10: for every input text and every behaviour of the optional
model-service collaborator, the type returned by `classify` is always a
non-null member of `{invoice, bill, prescription}` (the return type is a
plain `String`, never `None`). -/
theorem C10_classify_type_closed (text : String)
    (gemini : Option DocumentClassifier.GeminiBehavior) :
    (DocumentClassifier.classify text gemini).result.1 ∈
      (["invoice", "bill", "prescription"] : List String) := by
  rcases hc : DocumentClassifier.classifyByHeuristics text with ⟨dt, conf⟩
  have hcc := classifyByHeuristics_cases text dt conf hc
  simp only [DocumentClassifier.classify, hc]
  cases dt with
  | none =>
      simp only [Option.isSome_none, Bool.false_and, Bool.false_eq_true, if_false]
      cases gemini with
      | none => simp
      | some b =>
          by_cases hlt : conf < 7/10
          · by_cases hg2 : (DocumentClassifier.classifyWithGemini b).2 > conf
            · simpa [hlt, hg2] using classifyWithGemini_mem b
            · simp [hlt, hg2]
          · simp [hlt]
  | some d =>
      have hd : d ∈ (["invoice", "bill", "prescription"] : List String) := hcc.2 d rfl
      by_cases hgt : conf > 7/10
      · simpa [hgt] using hd
      · cases gemini with
        | none => simpa [hgt] using hd
        | some b =>
            by_cases hlt : conf < 7/10
            · by_cases hg2 : (DocumentClassifier.classifyWithGemini b).2 > conf
              · simpa [hgt, hlt, hg2] using classifyWithGemini_mem b
              · simpa [hgt, hlt, hg2] using hd
            · simpa [hgt, hlt] using hd

/-- C3 counterexample: the text
`"tax item rate amount due date quantity ship to"` has heuristic scores
`(7, 0, 0)`, giving heuristic confidence exactly 0.7.  The heuristic
confidence is not greater than 0.7, so by the claim the supplied model
service must be asked and — its confidence 0.75 exceeding 0.7 — its
result should win; but `classify` never consults it (it requires
confidence strictly below 0.7 to do so) and returns the heuristic result
`("invoice", 0.7)`. -/
theorem C3_exact_threshold_counterexample :
    (DocumentClassifier.classifyByHeuristics
      "tax item rate amount due date quantity ship to").2 = 7/10 ∧
    ¬(7/10 < (DocumentClassifier.classifyByHeuristics
      "tax item rate amount due date quantity ship to").2) ∧
    (DocumentClassifier.classifyByHeuristics
      "tax item rate amount due date quantity ship to").2 <
      (DocumentClassifier.classifyWithGemini (.responds "prescription")).2 ∧
    (DocumentClassifier.classify "tax item rate amount due date quantity ship to"
      (some (.responds "prescription"))).consulted = false ∧
    (DocumentClassifier.classify "tax item rate amount due date quantity ship to"
      (some (.responds "prescription"))).result = ("invoice", 7/10) := by
  have hs : DocumentClassifier.heuristicScores
      "tax item rate amount due date quantity ship to" = (7, 0, 0) := rfl
  have hconf : DocumentClassifier.heuristicConfidence 7 0 0 = 7/10 := by
    simp only [DocumentClassifier.heuristicConfidence]
    norm_num
  have hcb : DocumentClassifier.classifyByHeuristics
      "tax item rate amount due date quantity ship to" = (some "invoice", 7/10) := by
    simp only [DocumentClassifier.classifyByHeuristics, hs, DocumentClassifier.maxType]
    norm_num [hconf]
  have hg : DocumentClassifier.classifyWithGemini (.responds "prescription") =
      ("prescription", 75/100) := rfl
  have hclass : DocumentClassifier.classify
      "tax item rate amount due date quantity ship to"
      (some (.responds "prescription")) = ⟨("invoice", 7/10), false⟩ := by
    simp only [DocumentClassifier.classify, hcb]
    norm_num
  rw [hcb, hg, hclass]
  norm_num

/-- C3 (amended): with a model-service collaborator supplied, `classify`
returns the heuristic result directly when the heuristic confidence is
greater than 0.7; it consults the model exactly when the heuristic
confidence is strictly below 0.7, the model result winning exactly when
its confidence exceeds the heuristic one; at heuristic confidence exactly
0.7 the heuristic result is returned without consulting the model. -/
theorem C3_classify_model_consultation (text : String)
    (b : DocumentClassifier.GeminiBehavior) :
    (7/10 < (DocumentClassifier.classifyByHeuristics text).2 →
      DocumentClassifier.classify text (some b) =
        ⟨(((DocumentClassifier.classifyByHeuristics text).1).getD "",
          (DocumentClassifier.classifyByHeuristics text).2), false⟩) ∧
    ((DocumentClassifier.classifyByHeuristics text).2 < 7/10 →
      (DocumentClassifier.classify text (some b)).consulted = true ∧
      DocumentClassifier.classify text (some b) =
        (if (DocumentClassifier.classifyByHeuristics text).2 <
            (DocumentClassifier.classifyWithGemini b).2 then
          ⟨DocumentClassifier.classifyWithGemini b, true⟩
        else
          ⟨(((DocumentClassifier.classifyByHeuristics text).1).getD "invoice",
            if ((DocumentClassifier.classifyByHeuristics text).1).isSome then
              (DocumentClassifier.classifyByHeuristics text).2
            else 3/10), true⟩)) ∧
    ((DocumentClassifier.classifyByHeuristics text).2 = 7/10 →
      (DocumentClassifier.classify text (some b)).consulted = false ∧
      DocumentClassifier.classify text (some b) =
        ⟨(((DocumentClassifier.classifyByHeuristics text).1).getD "",
          (DocumentClassifier.classifyByHeuristics text).2), false⟩) := by
  rcases hc : DocumentClassifier.classifyByHeuristics text with ⟨dt, conf⟩
  have hcc := classifyByHeuristics_cases text dt conf hc
  simp only [DocumentClassifier.classify, hc]
  refine ⟨fun hgt => ?_, fun hlt => ?_, fun heq => ?_⟩
  · cases dt with
    | none =>
        have := hcc.1 rfl
        exact absurd hgt (by linarith)
    | some d => simp [hgt]
  · have h1 : ¬(7/10 < conf) := not_lt.mpr hlt.le
    cases dt with
    | none =>
        by_cases hg2 : conf < (DocumentClassifier.classifyWithGemini b).2 <;>
          simp [h1, hlt, hg2]
    | some d =>
        by_cases hg2 : conf < (DocumentClassifier.classifyWithGemini b).2 <;>
          simp [h1, hlt, hg2]
  · have h1 : ¬(7/10 < conf) := by rw [heq]; exact lt_irrefl _
    have h2 : ¬(conf < 7/10) := by rw [heq]; exact lt_irrefl _
    cases dt with
    | none =>
        have := hcc.1 rfl
        rw [heq] at this
        norm_num at this
    | some d => simp [h1, h2]

/-- Witness for C3 at a heuristic confidence strictly below 0.7: the empty
text classifies heuristically as `(None, 0)`, the model is consulted, and
its answer wins. -/
theorem C3_classify_model_consultation_witness :
    (DocumentClassifier.classify "" (some (.responds "bill"))).consulted = true ∧
    DocumentClassifier.classify "" (some (.responds "bill")) =
      ⟨("bill", 75/100), true⟩ := by
  have hc : DocumentClassifier.classifyByHeuristics "" = (none, 0) := rfl
  have h := (C3_classify_model_consultation "" (.responds "bill")).2.1
    (by rw [hc]; norm_num)
  refine ⟨h.1, ?_⟩
  rw [h.2, hc,
    show DocumentClassifier.classifyWithGemini (.responds "bill") = ("bill", 75/100)
      from rfl]
  norm_num

/-- Whatever state and exception the validators produce,
`assembleResult` makes validity equivalent to an empty error list. -/
theorem assembleResult_valid_iff (x : VResult) :
    (DataValidator.assembleResult x).isValid = true ↔
    (DataValidator.assembleResult x).errors = [] := by
  rcases x with ⟨r, e⟩
  cases e with
  | none => simp [DataValidator.assembleResult, List.isEmpty_iff]
  | some err => simp [DataValidator.assembleResult]

/-- C8: for every record and document type (and clock year),
`validate_document` returns `is_valid = true` exactly when its error list
is empty; warnings are collected separately and never affect validity. -/
theorem C8_validate_document_valid_iff_no_errors (currentYear : ℤ) (data : JValue)
    (docType : String) :
    (DataValidator.validateDocument currentYear data docType).isValid = true ↔
    (DataValidator.validateDocument currentYear data docType).errors = [] := by
  unfold DataValidator.validateDocument
  exact assembleResult_valid_iff _

/-- Witness for C8 at a concrete record (an empty record classified as an
invoice: required fields missing, hence invalid with errors). -/
theorem C8_validate_document_valid_iff_no_errors_witness :
    ((DataValidator.validateDocument 2025 (JValue.obj []) "invoice").isValid = true ↔
      (DataValidator.validateDocument 2025 (JValue.obj []) "invoice").errors = []) :=
  C8_validate_document_valid_iff_no_errors 2025 (JValue.obj []) "invoice"

/-- A loop whose step never touches the warning list leaves the warning
list unchanged, whether or not an exception escapes. -/
theorem vfor_warnings_preserved {α : Type} (step : α → VState → VResult)
    (h : ∀ a r, ((step a r).1).warnings = r.warnings) :
    ∀ (l : List α) (r : VState), ((vfor step l r).1).warnings = r.warnings
  | [], _ => rfl
  | a :: rest, r => by
      rcases hs : step a r with ⟨r1, e⟩
      have hw : r1.warnings = r.warnings := by
        have := h a r
        rw [hs] at this
        exact this
      rw [vfor, hs]
      cases e with
      | none =>
          simp only [vseq]
          rw [vfor_warnings_preserved step h rest r1, hw]
      | some err => simpa [vseq] using hw

/-- The required-field loop of `_validate_invoice_item` only ever appends
errors; warnings pass through untouched. -/
theorem invoiceItemFieldStep_warnings (item : JValue) (index : ℕ) (field : String)
    (r : VState) :
    ((DataValidator.invoiceItemFieldStep item index field r).1).warnings = r.warnings := by
  unfold DataValidator.invoiceItemFieldStep
  simp only [vlift]
  cases item.pyContains field with
  | error e => rfl
  | ok present =>
      cases present with
      | false => rfl
      | true =>
          simp only [Bool.not_true, Bool.false_eq_true, if_false]
          cases item.pyGetItem field with
          | error e => rfl
          | ok v =>
              simp only [vlift]
              split_ifs <;> simp [vdone, addError]

/-- C6 (amended): in the item-level arithmetic check
(`quantity*unit_price` versus `total`) a non-numeric value makes the
`float` conversion raise, the exception is swallowed and no warning is
produced; in the document-level totals checks (item sum versus `subtotal`,
`subtotal+tax_amount` versus `total_amount`) the raised `ValueError` or
`TypeError` is caught but a `Could not validate total calculations`
warning is appended. -/
theorem C6_arithmetic_check_behaviour :
    (∀ (item : JValue) (index : ℕ) (r : VState) (e : PyErr),
      DataValidator.invoiceItemArith item = .error e →
      ((DataValidator.validateInvoiceItem item index r).1).warnings = r.warnings) ∧
    (∀ (data : JValue) (r r2 : VState) (e : PyErr),
      DataValidator.validateInvoiceTotalsBody data r = (r2, some e) →
      e.isVEorTE = true →
      DataValidator.validateInvoiceTotals data r =
        (addWarning ("Could not validate total calculations: " ++ e.msg) r2, none)) := by
  constructor
  · intro item index r e harith
    unfold DataValidator.validateInvoiceItem
    rcases hloop : vfor (DataValidator.invoiceItemFieldStep item index)
        ["description", "quantity", "unit_price", "total"] r with ⟨r1, e1⟩
    have hw : r1.warnings = r.warnings := by
      have := vfor_warnings_preserved _ (invoiceItemFieldStep_warnings item index)
        ["description", "quantity", "unit_price", "total"] r
      rw [hloop] at this
      exact this
    cases e1 with
    | some e2 => simpa [vseq] using hw
    | none =>
        simp only [vseq]
        cases hfp : DataValidator.allFieldsPresent item
            ["quantity", "unit_price", "total"] with
        | error e2 => simpa using hw
        | ok bb =>
            cases bb with
            | false => simpa using hw
            | true =>
                rw [harith]
                by_cases hve : e.isVEorTE = true <;> simp [hve, hw, vdone]
  · intro data r r2 e hbody hve
    unfold DataValidator.validateInvoiceTotals
    rw [hbody]
    simp [hve, vdone]

/-- Witness for C6: an item whose `quantity` is the non-numeric string
`"abc"` — the item check stays silent (no warnings) — and a document whose
`subtotal` is `"abc"` with an empty item list — the totals check appends
the warning. -/
theorem C6_arithmetic_check_behaviour_witness :
    ((DataValidator.validateInvoiceItem
      (JValue.obj [("description", JValue.str "x"), ("quantity", JValue.str "abc"),
        ("unit_price", JValue.num 2), ("total", JValue.num 2)]) 0
      ⟨[], [], []⟩).1).warnings = [] ∧
    DataValidator.validateInvoiceTotals
      (JValue.obj [("items", JValue.arr []), ("subtotal", JValue.str "abc")])
      ⟨[], [], []⟩ =
      (addWarning
        ("Could not validate total calculations: could not convert string to float: \x27abc\x27")
        ⟨[], [], []⟩, none) :=
  ⟨C6_arithmetic_check_behaviour.1
    (JValue.obj [("description", JValue.str "x"), ("quantity", JValue.str "abc"),
      ("unit_price", JValue.num 2), ("total", JValue.num 2)]) 0 ⟨[], [], []⟩
    (.valueError "could not convert string to float: \x27abc\x27") rfl,
   C6_arithmetic_check_behaviour.2
    (JValue.obj [("items", JValue.arr []), ("subtotal", JValue.str "abc")])
    ⟨[], [], []⟩ ⟨[], [], []⟩
    (.valueError "could not convert string to float: \x27abc\x27") rfl rfl⟩

/-- C6 counterexample: the invoice `{"items": [], "subtotal": "abc"}` has
a non-numeric value in the document-level arithmetic check; the `float`
conversion raises `ValueError`, which is caught, but a warning IS produced
— the check is not silent as claimed. -/
theorem C6_totals_warning_counterexample :
    pyFloat (JValue.str "abc") =
      .error (.valueError "could not convert string to float: \x27abc\x27") ∧
    (DataValidator.validateDocument 2025
      (JValue.obj [("items", JValue.arr []), ("subtotal", JValue.str "abc")])
      "invoice").warnings =
      ["Could not validate total calculations: could not convert string to float: \x27abc\x27"] ∧
    (DataValidator.validateDocument 2025
      (JValue.obj [("items", JValue.arr []), ("subtotal", JValue.str "abc")])
      "invoice").warnings ≠ [] := by
  refine ⟨rfl, rfl, ?_⟩
  intro h
  rw [show (DataValidator.validateDocument 2025
      (JValue.obj [("items", JValue.arr []), ("subtotal", JValue.str "abc")])
      "invoice").warnings =
      ["Could not validate total calculations: could not convert string to float: \x27abc\x27"]
    from rfl] at h
  exact List.noConfusion h
